import Mathlib

/-!
Shallow embedding of `compiler/rustc_errors/src/diagnostic_impls.rs`:
the diagnostic-argument conversion layer (`IntoDiagnosticArg` impls), the
`TargetDataLayoutErrors` error-variant dispatcher (`IntoDiagnostic`), and
the `SingleLabelManySpans` subdiagnostic.

Rust machine integers are modelled as `Int`/`Nat` with explicit range
hypotheses where the width matters; owned and borrowed strings are both
`String` (`Cow` materialization is irrelevant to values).
-/

namespace DiagnosticImpls

/-- The argument value model: `DiagnosticArgValue<'static>` from `rustc_errors`.
`Number` holds an `i128`, modelled as `Int`; `Str` an owned UTF-8 string;
`StrListSepByAnd` an ordered sequence of owned strings. -/
inductive DiagnosticArgValue where
  | Number : Int → DiagnosticArgValue
  | Str : String → DiagnosticArgValue
  | StrListSepByAnd : List String → DiagnosticArgValue
deriving DecidableEq, Repr

/- `into_diagnostic_arg_using_display!` expands, for each listed type, to
`self.to_string().into_diagnostic_arg()`, i.e. `Str` of the `Display` form.
For the integer types in its list the `Display` form is the decimal
representation, which `toString` on `Int`/`Nat` reproduces exactly. -/

/-- `impl IntoDiagnosticArg for i8` via `into_diagnostic_arg_using_display!`. -/
def into_diagnostic_arg_i8 (n : Int) : DiagnosticArgValue :=
  .Str (toString n)

/-- `impl IntoDiagnosticArg for u8` via `into_diagnostic_arg_using_display!`. -/
def into_diagnostic_arg_u8 (n : Nat) : DiagnosticArgValue :=
  .Str (toString n)

/-- `impl IntoDiagnosticArg for i16` via `into_diagnostic_arg_using_display!`. -/
def into_diagnostic_arg_i16 (n : Int) : DiagnosticArgValue :=
  .Str (toString n)

/-- `impl IntoDiagnosticArg for u16` via `into_diagnostic_arg_using_display!`. -/
def into_diagnostic_arg_u16 (n : Nat) : DiagnosticArgValue :=
  .Str (toString n)

/-- `impl IntoDiagnosticArg for u32` via `into_diagnostic_arg_using_display!`. -/
def into_diagnostic_arg_u32 (n : Nat) : DiagnosticArgValue :=
  .Str (toString n)

/-- `impl IntoDiagnosticArg for i64` via `into_diagnostic_arg_using_display!`. -/
def into_diagnostic_arg_i64 (n : Int) : DiagnosticArgValue :=
  .Str (toString n)

/-- `impl IntoDiagnosticArg for i128` via `into_diagnostic_arg_using_display!`. -/
def into_diagnostic_arg_i128 (n : Int) : DiagnosticArgValue :=
  .Str (toString n)

/-- `impl IntoDiagnosticArg for u128` via `into_diagnostic_arg_using_display!`. -/
def into_diagnostic_arg_u128 (n : Nat) : DiagnosticArgValue :=
  .Str (toString n)

/-- `impl IntoDiagnosticArg for i32`: `DiagnosticArgValue::Number(self.into())`,
the lossless widening `i32 → i128`. -/
def into_diagnostic_arg_i32 (n : Int) : DiagnosticArgValue :=
  .Number n

/-- `impl IntoDiagnosticArg for u64`: `DiagnosticArgValue::Number(self.into())`,
the lossless widening `u64 → i128`. -/
def into_diagnostic_arg_u64 (n : Nat) : DiagnosticArgValue :=
  .Number (n : Int)

/-- `impl IntoDiagnosticArg for usize`: `DiagnosticArgValue::Number(self as i128)`;
`usize → i128` is value-preserving for every usize width up to 64 bits. -/
def into_diagnostic_arg_usize (n : Nat) : DiagnosticArgValue :=
  .Number (n : Int)

/-- `impl IntoDiagnosticArg for bool`: `Str("true")` or `Str("false")`. -/
def into_diagnostic_arg_bool (b : Bool) : DiagnosticArgValue :=
  if b then .Str "true" else .Str "false"

/-- `impl IntoDiagnosticArg for String`: `Str(Cow::Owned(self))`. -/
def into_diagnostic_arg_string (s : String) : DiagnosticArgValue :=
  .Str s

/-- `impl IntoDiagnosticArg for &'a str`: `self.to_string().into_diagnostic_arg()`,
i.e. `Str` of the same text, freshly owned. -/
def into_diagnostic_arg_str (s : String) : DiagnosticArgValue :=
  .Str s

/- Named characters, to keep escape sequences out of character literals. -/

/-- The tab character (code 9). -/
def tabChar : Char := Char.ofNat 9

/-- The line-feed character (code 10). -/
def lfChar : Char := Char.ofNat 10

/-- The carriage-return character (code 13). -/
def crChar : Char := Char.ofNat 13

/-- The single-quote character (code 39). -/
def quoteChar : Char := Char.ofNat 39

/-- The backslash character (code 92). -/
def backslashChar : Char := Char.ofNat 92

/-- The left-brace character (code 123). -/
def lbraceChar : Char := Char.ofNat 123

/-- The right-brace character (code 125). -/
def rbraceChar : Char := Char.ofNat 125

/-- Lower-case hex digit for a value below 16, as Rust's `{:x}` prints one. -/
def hexDigit (n : Nat) : Char :=
  if n < 10 then Char.ofNat (48 + n) else Char.ofNat (87 + n)

/-- Fuel-driven big-endian lower-case hex rendering of a natural number. -/
def natToHexAux : Nat → Nat → List Char → List Char
  | 0, _, acc => acc
  | fuel + 1, n, acc =>
    if n < 16 then hexDigit n :: acc
    else natToHexAux fuel (n / 16) (hexDigit (n % 16) :: acc)

/-- Big-endian lower-case hex digits of `n`, as Rust's `{:x}` prints them. -/
def natToHex (n : Nat) : List Char := natToHexAux (n + 1) n []

/-- Modelled from the spec: the escape body of Rust's `Debug` formatting for
`char` (`core::fmt`, outside `src/`): tab, carriage return, line feed,
backslash and the single quote escape to two-character sequences, other
control characters (codes below 32, and 127) to a `\u` + braces hex escape,
and every other character stands for itself. -/
def escapeDebugChar (c : Char) : List Char :=
  if c = tabChar then [backslashChar, 't']
  else if c = crChar then [backslashChar, 'r']
  else if c = lfChar then [backslashChar, 'n']
  else if c = backslashChar then [backslashChar, backslashChar]
  else if c = quoteChar then [backslashChar, quoteChar]
  else if c.toNat < 32 ∨ c.toNat = 127 then
    backslashChar :: 'u' :: lbraceChar :: (natToHex c.toNat ++ [rbraceChar])
  else [c]

/-- Modelled from the spec: Rust's `format!("{self:?}")` on a `char` — the
escaped body wrapped in single quotes. -/
def charDebugStr (c : Char) : String :=
  String.mk (quoteChar :: (escapeDebugChar c ++ [quoteChar]))

/-- `impl IntoDiagnosticArg for char`:
`DiagnosticArgValue::Str(Cow::Owned(format!("{self:?}")))`. -/
def into_diagnostic_arg_char (c : Char) : DiagnosticArgValue :=
  .Str (charDebugStr c)

/- The inverse of the quoting convention, used to state that the original
character is uniquely recoverable from the debug form. -/

/-- Value of one lower-case hex digit character. -/
def hexDigitVal (c : Char) : Option Nat :=
  if 48 ≤ c.toNat ∧ c.toNat ≤ 57 then some (c.toNat - 48)
  else if 97 ≤ c.toNat ∧ c.toNat ≤ 102 then some (c.toNat - 87)
  else none

/-- Fold a big-endian hex digit list onto an accumulator. -/
def hexDecodeAux : List Char → Nat → Option Nat
  | [], acc => some acc
  | c :: rest, acc =>
    match hexDigitVal c with
    | some d => hexDecodeAux rest (acc * 16 + d)
    | none => none

/-- Parse a nonempty big-endian lower-case hex digit list. -/
def hexDecode : List Char → Option Nat
  | [] => none
  | c :: rest => hexDecodeAux (c :: rest) 0

/-- Decode the interior of a `\u` + braces escape: hex digits followed by the
closing brace. -/
def decodeHexBody (l : List Char) : Option Char :=
  match l.reverse with
  | [] => none
  | last :: revDigits =>
    if last = rbraceChar then
      match hexDecode revDigits.reverse with
      | some n => some (Char.ofNat n)
      | none => none
    else none

/-- Invert `escapeDebugChar`: a single character stands for itself, a
backslash pair is one of the named escapes, and a `\u` + braces sequence
decodes through `decodeHexBody`. -/
def unescapeDebugChar : List Char → Option Char
  | [c] => some c
  | [a, b] =>
    if a = backslashChar then
      if b = 't' then some tabChar
      else if b = 'r' then some crChar
      else if b = 'n' then some lfChar
      else if b = backslashChar then some backslashChar
      else if b = quoteChar then some quoteChar
      else none
    else none
  | a :: b :: c :: rest =>
    if a = backslashChar ∧ b = 'u' ∧ c = lbraceChar then decodeHexBody rest
    else none
  | _ => none

/-- Invert `charDebugStr`: strip the surrounding single quotes and unescape
the body. -/
def charUnescapeDebug (s : String) : Option Char :=
  match s.data with
  | [] => none
  | q :: rest =>
    if q = quoteChar then
      match rest.reverse with
      | [] => none
      | q2 :: revInner =>
        if q2 = quoteChar then unescapeDebugChar revInner.reverse else none
    else none

/-- `Symbol` is an interned string; its `Display` form is its text. -/
abbrev Symbol := String

/-- `DiagnosticSymbolList(Vec<Symbol>)`. -/
structure DiagnosticSymbolList where
  symbols : List Symbol

/-- `impl IntoDiagnosticArg for DiagnosticSymbolList`:
`StrListSepByAnd(self.0.into_iter().map(|sym| Cow::Owned(format!("`{sym}`"))).collect())`. -/
def into_diagnostic_arg_symbol_list (l : DiagnosticSymbolList) : DiagnosticArgValue :=
  .StrListSepByAnd (l.symbols.map (fun sym => "`" ++ sym ++ "`"))

/-- Rust's `char::is_whitespace`: the Unicode White_Space set. -/
def rustIsWhitespace (c : Char) : Bool :=
  (9 ≤ c.toNat && c.toNat ≤ 13) || c.toNat == 32 || c.toNat == 133 || c.toNat == 160 ||
  c.toNat == 5760 || (8192 ≤ c.toNat && c.toNat ≤ 8202) || c.toNat == 8232 ||
  c.toNat == 8233 || c.toNat == 8239 || c.toNat == 8287 || c.toNat == 12288

/-- Rust's `str::trim_end`: remove the longest trailing run of whitespace
characters. -/
def trim_end (s : String) : String :=
  String.mk ((s.data.reverse.dropWhile rustIsWhitespace).reverse)

/-- Modelled from the spec: an `ast::Visibility` marker (declared in
`rustc_ast`, outside `src/`) carried here only through its
`pprust::vis_to_string` pretty-printed form, stored as `rendered`. -/
structure Visibility where
  rendered : String

/-- Modelled from the spec: `pprust::vis_to_string`, the dedicated
pretty-printer for visibility markers (outside `src/`). -/
def vis_to_string (v : Visibility) : String := v.rendered

/-- `impl IntoDiagnosticArg for ast::Visibility`: pretty-print with
`pprust::vis_to_string`, then `trim_end`, then wrap in `Str`. -/
def into_diagnostic_arg_visibility (v : Visibility) : DiagnosticArgValue :=
  .Str (trim_end (vis_to_string v))

/-- The `Clone` capability: duplicating an owned value. -/
class Clone (α : Type) where
  clone : α → α

/-- The `IntoDiagnosticArg` capability: the per-type conversion operation. -/
class IntoDiagnosticArg (α : Type) where
  into_diagnostic_arg : α → DiagnosticArgValue

/-- A shared reference `&'a T`, carrying the referent it points at. -/
structure Ref (α : Type) where
  deref : α

/-- `impl<'a, T: Clone + IntoDiagnosticArg> IntoDiagnosticArg for &'a T`:
`self.clone().into_diagnostic_arg()` — clone the referent, delegate to the
referent type's own conversion. -/
instance instIntoDiagnosticArgRef {α : Type} [Clone α] [IntoDiagnosticArg α] :
    IntoDiagnosticArg (Ref α) where
  into_diagnostic_arg r := IntoDiagnosticArg.into_diagnostic_arg (Clone.clone r.deref)

/-- `Clone` for `bool` is a bitwise copy. -/
instance instCloneBool : Clone Bool where
  clone := id

/-- The `bool` conversion, as a capability instance. -/
instance instIntoDiagnosticArgBool : IntoDiagnosticArg Bool where
  into_diagnostic_arg := into_diagnostic_arg_bool

/-- The Unicode replacement character U+FFFD. -/
def replacementChar : Char := Char.ofNat 65533

/-- Is `b` a UTF-8 continuation byte (`0x80..=0xBF`)? -/
def isContByte (b : Nat) : Bool := 128 ≤ b && b < 192

/-- Modelled from the spec: lossy UTF-8 decoding as in
`String::from_utf8_lossy` (std, outside `src/`) — well-formed sequences
decode to their scalar value, each maximal invalid subpart becomes one
U+FFFD replacement character. Fuel-driven; one byte at least is consumed
per step. -/
def utf8LossyAux : Nat → List Nat → List Char → List Char
  | 0, _, acc => acc.reverse
  | _ + 1, [], acc => acc.reverse
  | fuel + 1, b :: rest, acc =>
    if b < 128 then utf8LossyAux fuel rest (Char.ofNat b :: acc)
    else if 194 ≤ b && b ≤ 223 then
      match rest with
      | b2 :: rest2 =>
        if isContByte b2 then
          utf8LossyAux fuel rest2 (Char.ofNat ((b - 192) * 64 + (b2 - 128)) :: acc)
        else utf8LossyAux fuel rest (replacementChar :: acc)
      | [] => utf8LossyAux fuel [] (replacementChar :: acc)
    else if 224 ≤ b && b ≤ 239 then
      match rest with
      | b2 :: rest2 =>
        if (b == 224 && 160 ≤ b2 && b2 ≤ 191) ||
            (225 ≤ b && b ≤ 236 && isContByte b2) ||
            (b == 237 && 128 ≤ b2 && b2 ≤ 159) ||
            (238 ≤ b && isContByte b2) then
          match rest2 with
          | b3 :: rest3 =>
            if isContByte b3 then
              utf8LossyAux fuel rest3
                (Char.ofNat ((b - 224) * 4096 + (b2 - 128) * 64 + (b3 - 128)) :: acc)
            else utf8LossyAux fuel rest2 (replacementChar :: acc)
          | [] => utf8LossyAux fuel [] (replacementChar :: acc)
        else utf8LossyAux fuel rest (replacementChar :: acc)
      | [] => utf8LossyAux fuel [] (replacementChar :: acc)
    else if 240 ≤ b && b ≤ 244 then
      match rest with
      | b2 :: rest2 =>
        if (b == 240 && 144 ≤ b2 && b2 ≤ 191) ||
            (241 ≤ b && b ≤ 243 && isContByte b2) ||
            (b == 244 && 128 ≤ b2 && b2 ≤ 143) then
          match rest2 with
          | b3 :: rest3 =>
            if isContByte b3 then
              match rest3 with
              | b4 :: rest4 =>
                if isContByte b4 then
                  utf8LossyAux fuel rest4
                    (Char.ofNat ((b - 240) * 262144 + (b2 - 128) * 4096 +
                      (b3 - 128) * 64 + (b4 - 128)) :: acc)
                else utf8LossyAux fuel rest3 (replacementChar :: acc)
              | [] => utf8LossyAux fuel [] (replacementChar :: acc)
            else utf8LossyAux fuel rest2 (replacementChar :: acc)
          | [] => utf8LossyAux fuel [] (replacementChar :: acc)
        else utf8LossyAux fuel rest (replacementChar :: acc)
      | [] => utf8LossyAux fuel [] (replacementChar :: acc)
    else utf8LossyAux fuel rest (replacementChar :: acc)

/-- Lossy UTF-8 decoding of a byte sequence. -/
def utf8DecodeLossy (bytes : List Nat) : List Char :=
  utf8LossyAux (bytes.length + 1) bytes []

/-- Modelled from the spec: `std::ffi::CString` (std, outside `src/`),
carried as its byte contents without the nul terminator. -/
structure CString where
  bytes : List Nat

/-- Modelled from the spec: `CStr::to_string_lossy` (std, outside `src/`) —
lossy UTF-8 conversion of the bytes. -/
def CString.to_string_lossy (c : CString) : String :=
  String.mk (utf8DecodeLossy c.bytes)

/-- `impl IntoDiagnosticArg for std::ffi::CString`:
`Str(Cow::Owned(self.to_string_lossy().into_owned()))`. -/
def into_diagnostic_arg_cstring (c : CString) : DiagnosticArgValue :=
  .Str c.to_string_lossy

/-- Modelled from the spec: `rustc_data_structures::small_c_str::SmallCStr`
(outside `src/`), carried as its byte contents without the nul terminator. -/
structure SmallCStr where
  bytes : List Nat

/-- Modelled from the spec: `SmallCStr::to_string_lossy` — lossy UTF-8
conversion of the bytes. -/
def SmallCStr.to_string_lossy (c : SmallCStr) : String :=
  String.mk (utf8DecodeLossy c.bytes)

/-- `impl IntoDiagnosticArg for SmallCStr`:
`Str(Cow::Owned(self.to_string_lossy().into_owned()))`. -/
def into_diagnostic_arg_small_c_str (c : SmallCStr) : DiagnosticArgValue :=
  .Str c.to_string_lossy

/-- The fluent template keys selected by
`IntoDiagnostic for TargetDataLayoutErrors`, one per generated constant in
`fluent_generated::errors_target_*`. -/
inductive FluentKey where
  | errors_target_invalid_address_space
  | errors_target_invalid_bits
  | errors_target_missing_alignment
  | errors_target_invalid_alignment
  | errors_target_inconsistent_architecture
  | errors_target_inconsistent_pointer_width
  | errors_target_invalid_bits_size
deriving DecidableEq, Repr

/-- Diagnostic severity level, passed through to the builder unchanged. -/
inductive Level where
  | Bug
  | Fatal
  | Err
  | Warning
deriving DecidableEq, Repr

/-- Modelled from the spec: `std::num::ParseIntError` (std, outside `src/`),
carried through its `Display` form as `rendered`; its conversion goes
through `into_diagnostic_arg_using_display!`. -/
structure ParseIntError where
  rendered : String

/-- `impl IntoDiagnosticArg for ParseIntError` via
`into_diagnostic_arg_using_display!`. -/
def into_diagnostic_arg_parse_int_error (e : ParseIntError) : DiagnosticArgValue :=
  .Str e.rendered

/-- Modelled from the spec: the inner alignment parse error
(`rustc_abi::AlignFromBytesError`, outside `src/`): a small closed union
whose `diag_ident` is a discriminant string and whose `align` is the
offending alignment value. -/
inductive AlignFromBytesError where
  | NotPowerOfTwo (a : Nat)
  | TooLarge (a : Nat)
deriving DecidableEq, Repr

/-- Modelled from the spec: the derived `err_kind` discriminant string of
the inner alignment error. -/
def AlignFromBytesError.diag_ident : AlignFromBytesError → String
  | .NotPowerOfTwo _ => "not_power_of_two"
  | .TooLarge _ => "too_large"

/-- Modelled from the spec: the derived `align` value (a `u64`) of the
inner alignment error. -/
def AlignFromBytesError.align : AlignFromBytesError → Nat
  | .NotPowerOfTwo a => a
  | .TooLarge a => a

/-- `rustc_target::abi::TargetDataLayoutErrors`: the closed union of
target data-layout failure causes, with the field shapes used by the
`into_diagnostic` match (`u64` as `Nat`, `&str`/`String` as `String`). -/
inductive TargetDataLayoutErrors where
  | InvalidAddressSpace (addr_space : Nat) (err : ParseIntError) (cause : String)
  | InvalidBits (kind : String) (bit : Nat) (cause : String) (err : ParseIntError)
  | MissingAlignment (cause : String)
  | InvalidAlignment (cause : String) (err : AlignFromBytesError)
  | InconsistentTargetArchitecture (dl : String) (target : String)
  | InconsistentTargetPointerWidth (pointer_size : Nat) (target : String)
  | InvalidBitsSize (err : String)

/-- The diagnostic builder state this layer produces: the severity level,
the selected template key, and the named arguments bound so far. -/
structure DiagnosticBuilder where
  level : Level
  key : FluentKey
  args : List (String × DiagnosticArgValue)

/-- `DiagnosticBuilder::new(dcx, level, key)`: no arguments bound yet. -/
def DiagnosticBuilder.new (level : Level) (key : FluentKey) : DiagnosticBuilder :=
  ⟨level, key, []⟩

/-- `DiagnosticBuilder::arg_mv(name, value)`: bind one named, already
converted argument. -/
def DiagnosticBuilder.arg_mv (d : DiagnosticBuilder) (name : String)
    (v : DiagnosticArgValue) : DiagnosticBuilder :=
  { d with args := d.args ++ [(name, v)] }

/-- `impl IntoDiagnostic for TargetDataLayoutErrors`: single-step dispatch
from the variant tag to one template key plus that variant's named
argument bindings, each field converted by its own `IntoDiagnosticArg`
rule. -/
def TargetDataLayoutErrors.into_diagnostic (e : TargetDataLayoutErrors)
    (level : Level) : DiagnosticBuilder :=
  match e with
  | .InvalidAddressSpace addr_space err cause =>
    (((DiagnosticBuilder.new level .errors_target_invalid_address_space).arg_mv
        "addr_space" (into_diagnostic_arg_u64 addr_space)).arg_mv
        "cause" (into_diagnostic_arg_str cause)).arg_mv
        "err" (into_diagnostic_arg_parse_int_error err)
  | .InvalidBits kind bit cause err =>
    ((((DiagnosticBuilder.new level .errors_target_invalid_bits).arg_mv
        "kind" (into_diagnostic_arg_str kind)).arg_mv
        "bit" (into_diagnostic_arg_u64 bit)).arg_mv
        "cause" (into_diagnostic_arg_str cause)).arg_mv
        "err" (into_diagnostic_arg_parse_int_error err)
  | .MissingAlignment cause =>
    (DiagnosticBuilder.new level .errors_target_missing_alignment).arg_mv
        "cause" (into_diagnostic_arg_str cause)
  | .InvalidAlignment cause err =>
    (((DiagnosticBuilder.new level .errors_target_invalid_alignment).arg_mv
        "cause" (into_diagnostic_arg_str cause)).arg_mv
        "err_kind" (into_diagnostic_arg_str err.diag_ident)).arg_mv
        "align" (into_diagnostic_arg_u64 err.align)
  | .InconsistentTargetArchitecture dl target =>
    ((DiagnosticBuilder.new level .errors_target_inconsistent_architecture).arg_mv
        "dl" (into_diagnostic_arg_str dl)).arg_mv
        "target" (into_diagnostic_arg_str target)
  | .InconsistentTargetPointerWidth pointer_size target =>
    ((DiagnosticBuilder.new level .errors_target_inconsistent_pointer_width).arg_mv
        "pointer_size" (into_diagnostic_arg_u64 pointer_size)).arg_mv
        "target" (into_diagnostic_arg_str target)
  | .InvalidBitsSize err =>
    (DiagnosticBuilder.new level .errors_target_invalid_bits_size).arg_mv
        "err" (into_diagnostic_arg_string err)

/-- The variant tag of a `TargetDataLayoutErrors` value. -/
def TargetDataLayoutErrors.tag : TargetDataLayoutErrors → Nat
  | .InvalidAddressSpace .. => 0
  | .InvalidBits .. => 1
  | .MissingAlignment .. => 2
  | .InvalidAlignment .. => 3
  | .InconsistentTargetArchitecture .. => 4
  | .InconsistentTargetPointerWidth .. => 5
  | .InvalidBitsSize .. => 6

/-- The one template key fixed by each variant tag. -/
def expectedKey : Nat → FluentKey
  | 0 => .errors_target_invalid_address_space
  | 1 => .errors_target_invalid_bits
  | 2 => .errors_target_missing_alignment
  | 3 => .errors_target_invalid_alignment
  | 4 => .errors_target_inconsistent_architecture
  | 5 => .errors_target_inconsistent_pointer_width
  | _ => .errors_target_invalid_bits_size

/-- The fixed, ordered argument-name list bound by each variant tag. -/
def expectedArgNames : Nat → List String
  | 0 => ["addr_space", "cause", "err"]
  | 1 => ["kind", "bit", "cause", "err"]
  | 2 => ["cause"]
  | 3 => ["cause", "err_kind", "align"]
  | 4 => ["dl", "target"]
  | 5 => ["pointer_size", "target"]
  | _ => ["err"]

/-- A source span, opaque to this layer. -/
structure Span where
  lo : Nat
  hi : Nat
deriving DecidableEq, Repr

/-- Modelled from the spec: the diagnostic under construction
(`crate::Diagnostic`, outside `src/`) restricted to the state this layer
touches — bound named arguments, attached span labels, attached notes. -/
structure Diagnostic where
  args : List (String × DiagnosticArgValue)
  labels : List (Span × String)
  notes : List String

/-- Modelled from the spec: `Diagnostic::span_label` — attach one span with
a label string. -/
def Diagnostic.span_label (d : Diagnostic) (sp : Span) (lab : String) : Diagnostic :=
  { d with labels := d.labels ++ [(sp, lab)] }

/-- Modelled from the spec: `Diagnostic::span_labels` — attach every span
of the list with the same label string, in order. -/
def Diagnostic.span_labels (d : Diagnostic) (spans : List Span) (lab : String) :
    Diagnostic :=
  spans.foldl (fun acc sp => acc.span_label sp lab) d

/-- `SingleLabelManySpans`: one static label shared by many spans. -/
structure SingleLabelManySpans where
  spans : List Span
  label : String

/-- `impl AddToDiagnostic for SingleLabelManySpans`:
`diag.span_labels(self.spans, self.label)`. -/
def SingleLabelManySpans.add_to_diagnostic_with (s : SingleLabelManySpans)
    (d : Diagnostic) : Diagnostic :=
  d.span_labels s.spans s.label

/-! Helper lemmas. -/

/-- Hex rendering and parsing round-trip for the control-character range. -/
theorem hexDecode_natToHex_lt (n : Nat) (h : n < 128) :
    hexDecode (natToHex n) = some n := by
  revert h; revert n; decide

/-- The escape body of a character is never empty. -/
theorem escapeDebugChar_ne_nil (c : Char) : escapeDebugChar c ≠ [] := by
  unfold escapeDebugChar
  split_ifs <;> simp

/-- Unescaping inverts escaping on every character. -/
theorem unescapeDebugChar_escapeDebugChar (c : Char) :
    unescapeDebugChar (escapeDebugChar c) = some c := by
  unfold escapeDebugChar
  split_ifs with h1 h2 h3 h4 h5 h6
  · subst h1; decide
  · subst h2; decide
  · subst h3; decide
  · subst h4; decide
  · subst h5; decide
  · have hlt : c.toNat < 128 := by rcases h6 with h | h <;> omega
    simp only [unescapeDebugChar, decodeHexBody, List.reverse_append, List.reverse_cons,
      List.reverse_nil, List.nil_append, List.singleton_append, List.reverse_reverse]
    rw [hexDecode_natToHex_lt c.toNat hlt]
    simp [Char.ofNat_toNat]
  · simp [unescapeDebugChar]

/-- Stripping the quotes and unescaping inverts the full debug form. -/
theorem charUnescapeDebug_charDebugStr (c : Char) :
    charUnescapeDebug (charDebugStr c) = some c := by
  simp only [charUnescapeDebug, charDebugStr, List.reverse_append, List.reverse_cons,
    List.reverse_nil, List.nil_append, List.singleton_append, List.reverse_reverse,
    if_true]
  exact unescapeDebugChar_escapeDebugChar c

/-- `span_labels` appends one `(span, label)` pair per span, in order, and
touches nothing else. -/
theorem span_labels_append (spans : List Span) (d : Diagnostic) (lab : String) :
    d.span_labels spans lab =
      ⟨d.args, d.labels ++ spans.map (fun sp => (sp, lab)), d.notes⟩ := by
  induction spans generalizing d with
  | nil => simp [Diagnostic.span_labels]
  | cons sp rest ih =>
    show (d.span_label sp lab).span_labels rest lab = _
    rw [ih]
    simp [Diagnostic.span_label]

/-- The head surviving a `dropWhile` does not satisfy the predicate. -/
theorem head_dropWhile_false (p : Char → Bool) (l : List Char) (c : Char)
    (h : (l.dropWhile p).head? = some c) : p c = false := by
  induction l with
  | nil => simp [List.dropWhile] at h
  | cons a rest ih =>
    rw [List.dropWhile] at h
    cases hp : p a with
    | true => rw [hp] at h; exact ih h
    | false =>
      rw [hp] at h
      simp only [List.head?_cons, Option.some.injEq] at h
      subst h
      exact hp

/-! Claims. -/

/-- C1 counterexample: converting the i8 value `-5` does not yield
`Number(-5)` — the `into_diagnostic_arg_using_display!` impl for `i8`
yields `Str("-5")`. -/
theorem into_diagnostic_arg_i8_neg5_not_number :
    into_diagnostic_arg_i8 (-5) ≠ DiagnosticArgValue.Number (-5) := by
  decide

/-- C1 (amended): `i32` and `u64` convert through a dedicated impl into
`Number` carrying the exact widened value; the narrow integer types routed
through `into_diagnostic_arg_using_display!` (`i8`, `u8`, `i16`, `u16`,
`u32`, `i64`) convert into `Str` of the decimal representation instead; in
particular the i8 value `-5` yields `Str("-5")`. -/
theorem narrow_int_into_diagnostic_arg :
    (∀ n : Int, -2147483648 ≤ n → n < 2147483648 →
      into_diagnostic_arg_i32 n = .Number n) ∧
    (∀ n : Nat, n < 18446744073709551616 →
      into_diagnostic_arg_u64 n = .Number (n : Int)) ∧
    (∀ n : Int, -128 ≤ n → n < 128 → into_diagnostic_arg_i8 n = .Str (toString n)) ∧
    (∀ n : Nat, n < 256 → into_diagnostic_arg_u8 n = .Str (toString n)) ∧
    (∀ n : Int, -32768 ≤ n → n < 32768 →
      into_diagnostic_arg_i16 n = .Str (toString n)) ∧
    (∀ n : Nat, n < 65536 → into_diagnostic_arg_u16 n = .Str (toString n)) ∧
    (∀ n : Nat, n < 4294967296 → into_diagnostic_arg_u32 n = .Str (toString n)) ∧
    (∀ n : Int, -9223372036854775808 ≤ n → n < 9223372036854775808 →
      into_diagnostic_arg_i64 n = .Str (toString n)) ∧
    into_diagnostic_arg_i8 (-5) = .Str "-5" :=
  ⟨fun _ _ _ => rfl, fun _ _ => rfl, fun _ _ _ => rfl, fun _ _ => rfl,
   fun _ _ _ => rfl, fun _ _ => rfl, fun _ _ => rfl, fun _ _ _ => rfl, rfl⟩

/-- C1 witness: the amended statement applied at concrete inputs. -/
theorem narrow_int_into_diagnostic_arg_witness :
    into_diagnostic_arg_i32 (-7) = .Number (-7) ∧
    into_diagnostic_arg_u64 12 = .Number 12 ∧
    into_diagnostic_arg_i8 (-5) = .Str "-5" :=
  ⟨narrow_int_into_diagnostic_arg.1 (-7) (by decide) (by decide),
   narrow_int_into_diagnostic_arg.2.1 12 (by decide),
   narrow_int_into_diagnostic_arg.2.2.1 (-5) (by decide) (by decide)⟩

/-- C2: dispatching `InvalidAlignment` binds exactly the three named
arguments `cause`, `err_kind` (the derived discriminant string), `align`
(the derived value, as a `Number`), in that order, and selects
`errors_target_invalid_alignment`, which differs from
`errors_target_invalid_bits`. -/
theorem invalid_alignment_dispatch (level : Level) (cause : String)
    (err : AlignFromBytesError) :
    (TargetDataLayoutErrors.into_diagnostic (.InvalidAlignment cause err) level).key =
      .errors_target_invalid_alignment ∧
    (TargetDataLayoutErrors.into_diagnostic (.InvalidAlignment cause err) level).args =
      [("cause", .Str cause), ("err_kind", .Str err.diag_ident),
        ("align", .Number (err.align : Int))] ∧
    FluentKey.errors_target_invalid_alignment ≠ FluentKey.errors_target_invalid_bits :=
  ⟨rfl, rfl, by decide⟩

/-- C3: the dispatcher is total over every `TargetDataLayoutErrors`
variant; each variant yields the one template key and the fixed, ordered,
non-empty argument-name list determined by its tag alone. -/
theorem target_dispatch_exhaustive (e : TargetDataLayoutErrors) (level : Level) :
    (e.into_diagnostic level).key = expectedKey e.tag ∧
    (e.into_diagnostic level).args.map Prod.fst = expectedArgNames e.tag ∧
    (e.into_diagnostic level).args ≠ [] := by
  cases e <;>
    simp [TargetDataLayoutErrors.into_diagnostic, TargetDataLayoutErrors.tag,
      expectedKey, expectedArgNames, DiagnosticBuilder.new, DiagnosticBuilder.arg_mv]

/-- C4: boolean conversion yields exactly `Str("true")` for `true` and
exactly `Str("false")` for `false`. -/
theorem bool_into_diagnostic_arg_exact :
    into_diagnostic_arg_bool true = .Str "true" ∧
    into_diagnostic_arg_bool false = .Str "false" :=
  ⟨rfl, rfl⟩

/-- C6: symbol-list conversion yields `StrListSepByAnd` of the inputs in
order, each wrapped in backticks, one output element per input element; in
particular `["foo", "bar"]` yields exactly the two decorated strings. -/
theorem symbol_list_into_diagnostic_arg_order :
    (∀ syms : List Symbol,
      into_diagnostic_arg_symbol_list ⟨syms⟩ =
        .StrListSepByAnd (syms.map (fun sym => "`" ++ sym ++ "`")) ∧
      (syms.map (fun sym => "`" ++ sym ++ "`")).length = syms.length ∧
      ∀ i : Nat, (syms.map (fun sym => "`" ++ sym ++ "`"))[i]? =
        (syms[i]?).map (fun sym => "`" ++ sym ++ "`")) ∧
    into_diagnostic_arg_symbol_list ⟨["foo", "bar"]⟩ =
      .StrListSepByAnd ["`foo`", "`bar`"] :=
  ⟨fun syms => ⟨rfl, List.length_map _ _, fun i => List.getElem?_map _ _ _⟩, rfl⟩

/-- C7: converting a shared reference clones the referent and delegates to
the referent type's own conversion — for every instance pair and referent,
the reference conversion equals the conversion of the cloned referent; in
particular a reference to `true` converts exactly like `true`. -/
theorem ref_into_diagnostic_arg_clones_referent :
    (∀ (α : Type) [Clone α] [IntoDiagnosticArg α] (r : Ref α),
      IntoDiagnosticArg.into_diagnostic_arg r =
        IntoDiagnosticArg.into_diagnostic_arg (Clone.clone r.deref)) ∧
    IntoDiagnosticArg.into_diagnostic_arg (Ref.mk true) = .Str "true" :=
  ⟨fun _ _ _ _ => rfl, rfl⟩

/-- C5: character conversion yields `Str` of the quoted debug form, which
differs from the bare one-character string for every character and from
which the character is uniquely recovered by reversing the quoting
convention; in particular the line feed yields the four-character string
quote, backslash, `n`, quote. -/
theorem char_into_diagnostic_arg_quoted :
    (∀ c : Char,
      into_diagnostic_arg_char c = .Str (charDebugStr c) ∧
      charDebugStr c ≠ String.mk [c] ∧
      charUnescapeDebug (charDebugStr c) = some c) ∧
    charDebugStr lfChar = String.mk [quoteChar, backslashChar, 'n', quoteChar] := by
  refine ⟨fun c => ⟨rfl, ?_, charUnescapeDebug_charDebugStr c⟩, by decide⟩
  intro h
  have hl : (quoteChar :: (escapeDebugChar c ++ [quoteChar])).length = [c].length :=
    congrArg (fun s => s.data.length) h
  simp [List.length_append] at hl

/-- C8: visibility conversion yields `Str` of the pretty-printed form with
trailing whitespace removed; the resulting string never ends in a
whitespace character. -/
theorem visibility_into_diagnostic_arg_trimmed (v : Visibility) :
    into_diagnostic_arg_visibility v = .Str (trim_end (vis_to_string v)) ∧
    ∀ c : Char, (trim_end (vis_to_string v)).data.getLast? = some c →
      rustIsWhitespace c = false := by
  refine ⟨rfl, fun c hc => ?_⟩
  rw [show (trim_end (vis_to_string v)).data =
      ((vis_to_string v).data.reverse.dropWhile rustIsWhitespace).reverse from rfl,
    List.getLast?_reverse] at hc
  exact head_dropWhile_false rustIsWhitespace _ c hc

/-- C8 witness: the trimmed form of the rendering `"pub "` ends in `b`,
which is not whitespace. -/
theorem visibility_into_diagnostic_arg_trimmed_witness :
    rustIsWhitespace 'b' = false :=
  (visibility_into_diagnostic_arg_trimmed ⟨"pub "⟩).2 'b' (by decide)

/-- C9: merging a `SingleLabelManySpans` bundle appends one `(span, label)`
pair per span, in input order, all sharing the one static label, and leaves
the bound arguments and the notes of the diagnostic unchanged. -/
theorem single_label_many_spans_merge (s : SingleLabelManySpans) (d : Diagnostic) :
    (s.add_to_diagnostic_with d).labels =
      d.labels ++ s.spans.map (fun sp => (sp, s.label)) ∧
    (s.add_to_diagnostic_with d).args = d.args ∧
    (s.add_to_diagnostic_with d).notes = d.notes := by
  rw [SingleLabelManySpans.add_to_diagnostic_with, span_labels_append]
  exact ⟨rfl, rfl, rfl⟩

/-- C10: `CString` and `SmallCStr` conversion is total — every byte
sequence, valid UTF-8 or not, yields a `Str` of its lossy UTF-8 decoding;
an invalid byte becomes the U+FFFD replacement character instead of a
failure. -/
theorem cstring_into_diagnostic_arg_total_lossy :
    (∀ c : CString, into_diagnostic_arg_cstring c =
      .Str (String.mk (utf8DecodeLossy c.bytes))) ∧
    (∀ c : SmallCStr, into_diagnostic_arg_small_c_str c =
      .Str (String.mk (utf8DecodeLossy c.bytes))) ∧
    into_diagnostic_arg_cstring ⟨[255, 104, 105]⟩ =
      .Str (String.mk [replacementChar, 'h', 'i']) ∧
    into_diagnostic_arg_small_c_str ⟨[255]⟩ = .Str (String.mk [replacementChar]) :=
  ⟨fun _ => rfl, fun _ => rfl, by decide, by decide⟩

end DiagnosticImpls
